import Mathlib

/-!
Verification of the Tic-Tac-Toe game (`src/game.rs`, `src/main.rs`).

The Rust code is shallowly embedded: the board (`Vec<Vec<String>>`) becomes
`List (List String)`, the `Game` struct becomes a Lean structure, pure
functions become Lean functions, and the I/O-bound retry loops
(`get_player_move`, `get_bot_move`) are given explicit fuel with stdin /
the RNG modelled as streams.  Possible u32-underflow or index panics are
modelled with `Option`-valued variants of the affected functions.
-/

namespace TicTacToe

/-- The game board as an aliased type (`type Board = Vec<Vec<String>>`). -/
abbrev Board := List (List String)

/-- A turn in the game (`enum Turn { Player, Bot }`). -/
inductive Turn
  | Player
  | Bot
deriving DecidableEq

/-- The game struct: a board together with the current turn. -/
structure Game where
  board : Board
  current_turn : Turn
deriving DecidableEq

/-- Reading a cell of the board (`self.board[r][c]`); out-of-range reads
default to `""` (the Rust code would panic there; all uses are in range on
3×3 boards, which `is_valid_move?` makes explicit). -/
def cell (b : Board) (r c : Nat) : String :=
  ((b[r]?).bind (fun row => row[c]?)).getD ""

/-- Writing a cell of the board (`self.board[row][col] = token`). -/
def board_set (b : Board) (r c : Nat) (v : String) : Board :=
  b.set r (((b[r]?).getD []).set c v)

/-- The starting board of `Game::new` / `reset`: each cell displays its
1-based position number. -/
def new_board : Board :=
  [["1", "2", "3"], ["4", "5", "6"], ["7", "8", "9"]]

/-- `Game::new()`: fresh board, and the first turn defaults to the player. -/
def Game.new : Game :=
  { board := new_board, current_turn := Turn.Player }

/-- `move_to_board_location`: `row = (m - 1) / 3`, `col = (m - 1) % 3`
(on `Nat`; the u32 subtraction is modelled separately by
`move_to_board_location?`). -/
def move_to_board_location (game_move : Nat) : Nat × Nat :=
  ((game_move - 1) / 3, (game_move - 1) % 3)

/-- `move_to_board_location` with the u32 underflow made explicit: `none`
models the debug-mode panic of `game_move - 1` at `game_move = 0`. -/
def move_to_board_location? (game_move : Nat) : Option (Nat × Nat) :=
  if game_move = 0 then none
  else some ((game_move - 1) / 3, (game_move - 1) % 3)

/-- `is_valid_move`: the move matches `1...9` and targets a cell that holds
neither `"X"` nor `"O"`. -/
def is_valid_move (b : Board) (unchecked_move : Nat) : Bool :=
  if 1 ≤ unchecked_move ∧ unchecked_move ≤ 9 then
    let loc := move_to_board_location unchecked_move
    let s := cell b loc.1 loc.2
    if s == "X" || s == "O" then false else true
  else false

/-- `is_valid_move` with the possible panics made explicit: `none` models a
u32 underflow inside `move_to_board_location` or an out-of-bounds board
index. -/
def is_valid_move? (b : Board) (unchecked_move : Nat) : Option Bool :=
  if 1 ≤ unchecked_move ∧ unchecked_move ≤ 9 then
    match move_to_board_location? unchecked_move with
    | none => none
    | some loc =>
      match (b[loc.1]?).bind (fun row => row[loc.2]?) with
      | none => none
      | some s => some (if s == "X" || s == "O" then false else true)
  else some false

/-- Models Rust `str::to_lowercase` (on ASCII input): lowercase every
character.  Defined by structural recursion on the character list so that
it evaluates inside the kernel. -/
def to_lowercase (s : String) : String :=
  String.mk (s.data.map Char.toLower)

/-- Models Rust `str::trim`: remove leading and trailing whitespace. -/
def trim_ws (s : String) : String :=
  String.mk (((s.data.dropWhile Char.isWhitespace).reverse.dropWhile
    Char.isWhitespace).reverse)

/-- Models `player_input.trim().parse::<u32>()`: trim, parse a natural
number, and reject values that do not fit in a u32. -/
def parse_u32 (s : String) : Option Nat :=
  match (trim_ws s).toNat? with
  | some n => if n < 4294967296 then some n else none
  | none => none

/-- `validate_player_input`. -/
def validate_player_input (b : Board) (player_input : String) : Except String Nat :=
  match parse_u32 player_input with
  | none => Except.error "Please input a valid unsigned integer!"
  | some number =>
    if is_valid_move b number then Except.ok number
    else Except.error "Please input a number, between 1 and 9, not already chosen!"

/-- `get_player_move`, with the blocking retry loop given explicit fuel and
stdin modelled as a stream of lines (`none` = read error, which the code
answers with a retry).  The result is `none` only when the fuel runs out,
i.e. when the Rust loop has not returned within `fuel` iterations. -/
def get_player_move (b : Board) (stdin : Nat → Option String) : Nat → Option Nat
  | 0 => none
  | fuel + 1 =>
    match stdin 0 with
    | none => get_player_move b (fun i => stdin (i + 1)) fuel
    | some line =>
      match validate_player_input b line with
      | Except.error _ => get_player_move b (fun i => stdin (i + 1)) fuel
      | Except.ok num => some num

/-- `get_bot_move`, with the rejection-sampling loop given explicit fuel
and `rand::random::<u32>()` modelled as a stream of draws. -/
def get_bot_move (b : Board) (rand : Nat → Nat) : Nat → Option Nat
  | 0 => none
  | fuel + 1 =>
    let bot_move := rand 0 % 9 + 1
    if is_valid_move b bot_move then some bot_move
    else get_bot_move b (fun i => rand (i + 1)) fuel

/-- `game_is_won`: the `for index in 0..3` loop unrolled; a line counts as
won when its three cells are pairwise equal strings. -/
def game_is_won (b : Board) : Bool :=
  let all_same_row :=
    (cell b 0 0 == cell b 0 1 && cell b 0 1 == cell b 0 2) ||
    (cell b 1 0 == cell b 1 1 && cell b 1 1 == cell b 1 2) ||
    (cell b 2 0 == cell b 2 1 && cell b 2 1 == cell b 2 2)
  let all_same_col :=
    (cell b 0 0 == cell b 1 0 && cell b 1 0 == cell b 2 0) ||
    (cell b 0 1 == cell b 1 1 && cell b 1 1 == cell b 2 1) ||
    (cell b 0 2 == cell b 1 2 && cell b 1 2 == cell b 2 2)
  let all_same_diag_1 := cell b 0 0 == cell b 1 1 && cell b 1 1 == cell b 2 2
  let all_same_diag_2 := cell b 0 2 == cell b 1 1 && cell b 1 1 == cell b 2 0
  all_same_row || all_same_col || all_same_diag_1 || all_same_diag_2

/-- `player_is_finished`: reads the answer to "Are you finished playing
(y/n)?" (`none` = read error, which yields `false`); the player is finished
iff the lowercased, trimmed input is `"y"` or `"yes"`. -/
def player_is_finished (input : Option String) : Bool :=
  match input with
  | some player_input =>
    let temp_input := to_lowercase player_input
    trim_ws temp_input == "y" || trim_ws temp_input == "yes"
  | none => false

/-- `get_next_turn`. -/
def get_next_turn (g : Game) : Turn :=
  match g.current_turn with
  | Turn.Player => Turn.Bot
  | Turn.Bot => Turn.Player

/-- The token placed by each side in `play_turn` (the `valid_token` of the
match on `self.current_turn`): Player places `"X"`, Bot places `"O"`. -/
def valid_token (t : Turn) : String :=
  match t with
  | Turn.Player => "X"
  | Turn.Bot => "O"

/-- `play_turn`, with the already-acquired move passed in as an argument
(move acquisition is I/O; `get_player_move` / `get_bot_move` only ever hand
back moves for which `is_valid_move` holds). -/
def play_turn (g : Game) (valid_move : Nat) : Game :=
  let loc := move_to_board_location valid_move
  { g with board := board_set g.board loc.1 loc.2 (valid_token g.current_turn) }

/-- `reset`: fresh board, player to move. -/
def reset (_ : Game) : Game :=
  { board := new_board, current_turn := Turn.Player }

/-- One iteration of the `while !finished` loop of `play_game`: play the
turn with the acquired move `mv`; on a win, print the win/lose message,
reset, and ask `player_is_finished` with the answer `ans`; finally set
`current_turn = get_next_turn`.  Returns the new state, the `finished`
flag, and the list of win/lose messages printed. -/
def play_game_iter (g : Game) (mv : Nat) (ans : Option String) :
    Game × Bool × List String :=
  let g1 := play_turn g mv
  if game_is_won g1.board then
    let msg :=
      match g1.current_turn with
      | Turn.Player => "You won!"
      | Turn.Bot => "You lost!"
    let g2 := reset g1
    let fin := player_is_finished ans
    ({ g2 with current_turn := get_next_turn g2 }, fin, [msg])
  else
    ({ g1 with current_turn := get_next_turn g1 }, false, [])

/-- Spec-side predicate: the three cells of some complete line (3 rows,
3 columns, 2 diagonals) all hold the mark `m`. -/
def line_all (b : Board) (m : String) : Bool :=
  (cell b 0 0 == m && cell b 0 1 == m && cell b 0 2 == m) ||
  (cell b 1 0 == m && cell b 1 1 == m && cell b 1 2 == m) ||
  (cell b 2 0 == m && cell b 2 1 == m && cell b 2 2 == m) ||
  (cell b 0 0 == m && cell b 1 0 == m && cell b 2 0 == m) ||
  (cell b 0 1 == m && cell b 1 1 == m && cell b 2 1 == m) ||
  (cell b 0 2 == m && cell b 1 2 == m && cell b 2 2 == m) ||
  (cell b 0 0 == m && cell b 1 1 == m && cell b 2 2 == m) ||
  (cell b 0 2 == m && cell b 1 1 == m && cell b 2 0 == m)

/-- Spec-side win predicate (following the spec's words, for comparison
with `game_is_won`): at least one of the 8 lines has all three cells
occupied by the same mark. -/
def lineWonSpec (b : Board) : Bool :=
  line_all b "X" || line_all b "O"

/-- The board is a well-formed 3×3 grid. -/
abbrev WF (b : Board) : Prop :=
  b.length = 3 ∧ ∀ row ∈ b, row.length = 3

/-- The display label a fresh board shows at `(r, c)`. -/
def posLabel (r c : Nat) : String :=
  toString (3 * r + c + 1)

/-- Boards reachable by legal play: well-formed, and every cell either
still shows its fresh position label or holds one of the two marks. -/
abbrev Reachable (b : Board) : Prop :=
  WF b ∧ ∀ r < 3, ∀ c < 3,
    cell b r c = posLabel r c ∨ cell b r c = "X" ∨ cell b r c = "O"

/-- The board is full: every cell holds a mark. -/
abbrev Full (b : Board) : Prop :=
  ∀ r < 3, ∀ c < 3, cell b r c = "X" ∨ cell b r c = "O"

/-- A 3×3 board from its nine cells, used to destructure `WF` boards. -/
def mk_board (a00 a01 a02 a10 a11 a12 a20 a21 a22 : String) : Board :=
  [[a00, a01, a02], [a10, a11, a12], [a20, a21, a22]]

/-- A position in which the player completes the top row by playing 3. -/
def won_setup : Game :=
  { board := [["X", "X", "3"], ["4", "5", "6"], ["7", "8", "9"]],
    current_turn := Turn.Player }

/-- A full board with no completed line (a drawn position). -/
def drawn_board : Board :=
  [["X", "O", "X"], ["X", "O", "O"], ["O", "X", "X"]]

@[simp]
theorem cell_mk00 (a00 a01 a02 a10 a11 a12 a20 a21 a22 : String) :
    cell (mk_board a00 a01 a02 a10 a11 a12 a20 a21 a22) 0 0 = a00 := rfl

@[simp]
theorem cell_mk01 (a00 a01 a02 a10 a11 a12 a20 a21 a22 : String) :
    cell (mk_board a00 a01 a02 a10 a11 a12 a20 a21 a22) 0 1 = a01 := rfl

@[simp]
theorem cell_mk02 (a00 a01 a02 a10 a11 a12 a20 a21 a22 : String) :
    cell (mk_board a00 a01 a02 a10 a11 a12 a20 a21 a22) 0 2 = a02 := rfl

@[simp]
theorem cell_mk10 (a00 a01 a02 a10 a11 a12 a20 a21 a22 : String) :
    cell (mk_board a00 a01 a02 a10 a11 a12 a20 a21 a22) 1 0 = a10 := rfl

@[simp]
theorem cell_mk11 (a00 a01 a02 a10 a11 a12 a20 a21 a22 : String) :
    cell (mk_board a00 a01 a02 a10 a11 a12 a20 a21 a22) 1 1 = a11 := rfl

@[simp]
theorem cell_mk12 (a00 a01 a02 a10 a11 a12 a20 a21 a22 : String) :
    cell (mk_board a00 a01 a02 a10 a11 a12 a20 a21 a22) 1 2 = a12 := rfl

@[simp]
theorem cell_mk20 (a00 a01 a02 a10 a11 a12 a20 a21 a22 : String) :
    cell (mk_board a00 a01 a02 a10 a11 a12 a20 a21 a22) 2 0 = a20 := rfl

@[simp]
theorem cell_mk21 (a00 a01 a02 a10 a11 a12 a20 a21 a22 : String) :
    cell (mk_board a00 a01 a02 a10 a11 a12 a20 a21 a22) 2 1 = a21 := rfl

@[simp]
theorem cell_mk22 (a00 a01 a02 a10 a11 a12 a20 a21 a22 : String) :
    cell (mk_board a00 a01 a02 a10 a11 a12 a20 a21 a22) 2 2 = a22 := rfl

@[simp]
theorem set_mk00 (a00 a01 a02 a10 a11 a12 a20 a21 a22 v : String) :
    board_set (mk_board a00 a01 a02 a10 a11 a12 a20 a21 a22) 0 0 v =
      mk_board v a01 a02 a10 a11 a12 a20 a21 a22 := rfl

@[simp]
theorem set_mk01 (a00 a01 a02 a10 a11 a12 a20 a21 a22 v : String) :
    board_set (mk_board a00 a01 a02 a10 a11 a12 a20 a21 a22) 0 1 v =
      mk_board a00 v a02 a10 a11 a12 a20 a21 a22 := rfl

@[simp]
theorem set_mk02 (a00 a01 a02 a10 a11 a12 a20 a21 a22 v : String) :
    board_set (mk_board a00 a01 a02 a10 a11 a12 a20 a21 a22) 0 2 v =
      mk_board a00 a01 v a10 a11 a12 a20 a21 a22 := rfl

@[simp]
theorem set_mk10 (a00 a01 a02 a10 a11 a12 a20 a21 a22 v : String) :
    board_set (mk_board a00 a01 a02 a10 a11 a12 a20 a21 a22) 1 0 v =
      mk_board a00 a01 a02 v a11 a12 a20 a21 a22 := rfl

@[simp]
theorem set_mk11 (a00 a01 a02 a10 a11 a12 a20 a21 a22 v : String) :
    board_set (mk_board a00 a01 a02 a10 a11 a12 a20 a21 a22) 1 1 v =
      mk_board a00 a01 a02 a10 v a12 a20 a21 a22 := rfl

@[simp]
theorem set_mk12 (a00 a01 a02 a10 a11 a12 a20 a21 a22 v : String) :
    board_set (mk_board a00 a01 a02 a10 a11 a12 a20 a21 a22) 1 2 v =
      mk_board a00 a01 a02 a10 a11 v a20 a21 a22 := rfl

@[simp]
theorem set_mk20 (a00 a01 a02 a10 a11 a12 a20 a21 a22 v : String) :
    board_set (mk_board a00 a01 a02 a10 a11 a12 a20 a21 a22) 2 0 v =
      mk_board a00 a01 a02 a10 a11 a12 v a21 a22 := rfl

@[simp]
theorem set_mk21 (a00 a01 a02 a10 a11 a12 a20 a21 a22 v : String) :
    board_set (mk_board a00 a01 a02 a10 a11 a12 a20 a21 a22) 2 1 v =
      mk_board a00 a01 a02 a10 a11 a12 a20 v a22 := rfl

@[simp]
theorem set_mk22 (a00 a01 a02 a10 a11 a12 a20 a21 a22 v : String) :
    board_set (mk_board a00 a01 a02 a10 a11 a12 a20 a21 a22) 2 2 v =
      mk_board a00 a01 a02 a10 a11 a12 a20 a21 v := rfl

theorem wf_destruct (b : Board) (h : WF b) :
    ∃ a00 a01 a02 a10 a11 a12 a20 a21 a22 : String,
      b = mk_board a00 a01 a02 a10 a11 a12 a20 a21 a22 := by
  obtain ⟨hlen, hrows⟩ := h
  obtain ⟨r0, r1, r2, rfl⟩ := List.length_eq_three.mp hlen
  obtain ⟨a00, a01, a02, rfl⟩ := List.length_eq_three.mp (hrows r0 (by simp))
  obtain ⟨a10, a11, a12, rfl⟩ := List.length_eq_three.mp (hrows r1 (by simp))
  obtain ⟨a20, a21, a22, rfl⟩ := List.length_eq_three.mp (hrows r2 (by simp))
  exact ⟨a00, a01, a02, a10, a11, a12, a20, a21, a22, rfl⟩

/-- C7: `move_to_board_location` maps the positions 1..9 to the grid
coordinates 1→(0,0), 2→(0,1), 3→(0,2), 4→(1,0), 5→(1,1), 6→(1,2),
7→(2,0), 8→(2,1), 9→(2,2), i.e. to ((n-1)/3, (n-1)%3). -/
theorem c7_move_to_board_location_table :
    move_to_board_location 1 = (0, 0) ∧ move_to_board_location 2 = (0, 1) ∧
    move_to_board_location 3 = (0, 2) ∧ move_to_board_location 4 = (1, 0) ∧
    move_to_board_location 5 = (1, 1) ∧ move_to_board_location 6 = (1, 2) ∧
    move_to_board_location 7 = (2, 0) ∧ move_to_board_location 8 = (2, 1) ∧
    move_to_board_location 9 = (2, 2) := by
  decide

/-- C6: `is_valid_move` returns true iff the candidate value is in 1..9 and
the cell it addresses holds neither `"X"` nor `"O"`; in particular every
value outside 1..9 is rejected. -/
theorem c6_is_valid_move_iff (b : Board) (m : Nat) :
    is_valid_move b m = true ↔
      1 ≤ m ∧ m ≤ 9 ∧
        cell b (move_to_board_location m).1 (move_to_board_location m).2 ≠ "X" ∧
        cell b (move_to_board_location m).1 (move_to_board_location m).2 ≠ "O" := by
  by_cases hr : 1 ≤ m ∧ m ≤ 9
  · simp [is_valid_move, hr]
  · simp [is_valid_move, hr]
    tauto

/-- C10: for every u32-sized input, including 0 and values above 9,
`is_valid_move` on a well-formed board evaluates without panicking: the
`Option`-explicit model returns `some` of the value of the total model, so
the u32 subtraction in `move_to_board_location` (which would underflow at
input 0) and the board indexing are only reached for inputs in 1..9. -/
theorem c10_is_valid_move_no_panic (b : Board) (m : Nat)
    (hWF : WF b) (hm : m < 4294967296) :
    is_valid_move? b m = some (is_valid_move b m) := by
  by_cases hr : 1 ≤ m ∧ m ≤ 9
  · obtain ⟨a00, a01, a02, a10, a11, a12, a20, a21, a22, rfl⟩ := wf_destruct b hWF
    obtain ⟨h1, h9⟩ := hr
    interval_cases m <;> rfl
  · simp [is_valid_move?, is_valid_move, hr]

/-- Witness for C10 at the fresh board and input 0. -/
theorem c10_witness :
    WF new_board ∧ 0 < 4294967296 ∧
      is_valid_move? new_board 0 = some (is_valid_move new_board 0) :=
  ⟨by decide, by decide, c10_is_valid_move_no_panic new_board 0 (by decide) (by decide)⟩

theorem full_no_valid (b : Board) (hfull : Full b) :
    ∀ m, is_valid_move b m = false := by
  intro m
  by_cases hr : 1 ≤ m ∧ m ≤ 9
  · have hrow : (m - 1) / 3 < 3 := by omega
    have hcol : (m - 1) % 3 < 3 := by omega
    have h := hfull ((m - 1) / 3) hrow ((m - 1) % 3) hcol
    rcases h with h | h <;> simp [is_valid_move, hr, move_to_board_location, h]
  · simp [is_valid_move, hr]

theorem bot_move_none (b : Board) (hfull : Full b) :
    ∀ fuel rand, get_bot_move b rand fuel = none := by
  intro fuel
  induction fuel with
  | zero => intro rand; rfl
  | succ n ih =>
    intro rand
    simp [get_bot_move, full_no_valid b hfull]
    exact ih _

theorem validate_err_of_full (b : Board) (hfull : Full b) (s : String) :
    ∃ e, validate_player_input b s = Except.error e := by
  rcases hp : parse_u32 s with _ | n
  · exact ⟨"Please input a valid unsigned integer!",
      by simp [validate_player_input, hp]⟩
  · exact ⟨"Please input a number, between 1 and 9, not already chosen!",
      by simp [validate_player_input, hp, full_no_valid b hfull]⟩

theorem player_move_none (b : Board) (hfull : Full b) :
    ∀ fuel stdin, get_player_move b stdin fuel = none := by
  intro fuel
  induction fuel with
  | zero => intro stdin; rfl
  | succ n ih =>
    intro stdin
    simp only [get_player_move]
    cases hline : stdin 0 with
    | none => exact ih _
    | some line =>
      obtain ⟨e, he⟩ := validate_err_of_full b hfull line
      simp [he]
      exact ih _

/-- C4: the program never reports a draw.  On a full board with no
completed line there is no legal move at all, so neither the bot's
rejection-sampling loop nor the player's re-prompting loop can ever return
(for any fuel, RNG stream, or input stream); and the only messages a loop
iteration can ever print are the win/lose messages — no draw message
exists. -/
theorem c4_no_draw (b : Board) (m fuel : Nat) (rand : Nat → Nat)
    (stdin : Nat → Option String) (g : Game) (mv : Nat) (ans : Option String)
    (hWF : WF b) (hfull : Full b) (hnoline : game_is_won b = false) :
    is_valid_move b m = false ∧
    get_bot_move b rand fuel = none ∧
    get_player_move b stdin fuel = none ∧
    ((play_game_iter g mv ans).2.2 = [] ∨
      (play_game_iter g mv ans).2.2 = ["You won!"] ∨
      (play_game_iter g mv ans).2.2 = ["You lost!"]) := by
  refine ⟨full_no_valid b hfull m, bot_move_none b hfull fuel rand,
    player_move_none b hfull fuel stdin, ?_⟩
  by_cases hw : game_is_won (play_turn g mv).board = true
  · simp only [play_game_iter, hw, if_true]
    cases (play_turn g mv).current_turn <;> simp
  · simp [play_game_iter, hw]

/-- Witness for C4 at the drawn board. -/
theorem c4_witness :
    WF drawn_board ∧ Full drawn_board ∧ game_is_won drawn_board = false ∧
    (is_valid_move drawn_board 5 = false ∧
      get_bot_move drawn_board (fun _ => 0) 2 = none ∧
      get_player_move drawn_board (fun _ => some "5") 2 = none ∧
      ((play_game_iter Game.new 1 none).2.2 = [] ∨
        (play_game_iter Game.new 1 none).2.2 = ["You won!"] ∨
        (play_game_iter Game.new 1 none).2.2 = ["You lost!"])) :=
  ⟨by decide, by decide, by decide,
    c4_no_draw drawn_board 5 2 (fun _ => 0) (fun _ => some "5") Game.new 1 none
      (by decide) (by decide) (by decide)⟩

/-- C9: whenever the bot's move selection returns a value (here: within any
amount of fuel, for any RNG stream), that value is a legal move — illegal
draws are re-drawn and never returned. -/
theorem c9_bot_move_legal (b : Board) (rand : Nat → Nat) (fuel m : Nat)
    (hlegal : ∃ p, is_valid_move b p = true)
    (hres : get_bot_move b rand fuel = some m) :
    is_valid_move b m = true := by
  induction fuel generalizing rand with
  | zero => simp [get_bot_move] at hres
  | succ n ih =>
    simp only [get_bot_move] at hres
    by_cases hv : is_valid_move b (rand 0 % 9 + 1) = true
    · simp [hv] at hres
      rw [← hres]
      exact hv
    · simp [hv] at hres
      exact ih _ hres

/-- Witness for C9 at the fresh board with an RNG that draws position 1. -/
theorem c9_witness :
    (∃ p, is_valid_move new_board p = true) ∧
    get_bot_move new_board (fun _ => 0) 1 = some 1 ∧
    is_valid_move new_board 1 = true :=
  ⟨⟨1, by decide⟩, by decide,
    c9_bot_move_legal new_board (fun _ => 0) 1 1 ⟨1, by decide⟩ (by decide)⟩

/-- C1 counterexample: after the player completes the top row of
`won_setup`, answering "y" at the prompt ends the program
(finished = true) instead of starting a new match, and answering "n"
continues with a new match instead of ending the program. -/
theorem c1_counterexample :
    (play_game_iter won_setup 3 (some "y")).2.1 = true ∧
    (play_game_iter won_setup 3 (some "n")).2.1 = false := by
  decide

/-- C1 (corrected): the prompt is "Are you finished playing (y/n)?", so an
input of "y"/"yes" (case-insensitive, after lowercasing and trimming) sets
the finished flag and ends the program, while any other input — including
a failure to read input — keeps the loop running so a new match begins;
the board is reset to the fresh board in either case. -/
theorem c1_finished_prompt (g : Game) (mv : Nat) (ans : Option String)
    (hwon : game_is_won (play_turn g mv).board = true) :
    ((play_game_iter g mv ans).2.1 =
      match ans with
      | some s =>
        (trim_ws (to_lowercase s) == "y" || trim_ws (to_lowercase s) == "yes")
      | none => false) ∧
    (play_game_iter g mv ans).1.board = new_board := by
  constructor
  · simp only [play_game_iter, hwon, if_true]
    cases ans <;> rfl
  · simp [play_game_iter, hwon, reset, get_next_turn]

/-- Witness for C1 at `won_setup` with the non-affirmative answer
"maybe". -/
theorem c1_witness :
    game_is_won (play_turn won_setup 3).board = true ∧
    (play_game_iter won_setup 3 (some "maybe")).2.1 = false ∧
    (play_game_iter won_setup 3 (some "maybe")).1.board = new_board := by
  have h := c1_finished_prompt won_setup 3 (some "maybe") (by decide)
  exact ⟨by decide, h.1.trans (by decide), h.2⟩

/-- C2 (code bug): after the player's win in `won_setup` and a negative
answer (rematch), the loop iteration leaves `current_turn = Bot`, although
`reset` itself had just set `current_turn = Player` — `play_game` flips the
turn after the reset, so the next match begins with the Bot to move. -/
theorem c2_failing_eval :
    (play_game_iter won_setup 3 (some "n")).2.1 = false ∧
    (play_game_iter won_setup 3 (some "n")).1.current_turn = Turn.Bot ∧
    (reset (play_turn won_setup 3)).current_turn = Turn.Player := by
  decide

theorem is_valid_move_iff (b : Board) (m : Nat) :
    is_valid_move b m = true ↔
      1 ≤ m ∧ m ≤ 9 ∧
        cell b (move_to_board_location m).1 (move_to_board_location m).2 ≠ "X" ∧
        cell b (move_to_board_location m).1 (move_to_board_location m).2 ≠ "O" := by
  by_cases hr : 1 ≤ m ∧ m ≤ 9
  · simp [is_valid_move, hr]
  · simp [is_valid_move, hr]
    tauto

theorem all3 {x y z m : String} (h1 : x = m) (h2 : y = m) (h3 : z = m) :
    x = y ∧ y = z :=
  ⟨h1.trans h2.symm, h2.trans h3.symm⟩

theorem line_mark {x y z lx ly : String}
    (hx : x = lx ∨ x = "X" ∨ x = "O") (hy : y = ly ∨ y = "X" ∨ y = "O")
    (hxy : lx ≠ ly) (hlX : lx ≠ "X") (hlO : lx ≠ "O")
    (h1 : x = y) (h2 : y = z) :
    (x = "X" ∧ y = "X" ∧ z = "X") ∨ (x = "O" ∧ y = "O" ∧ z = "O") := by
  rcases hx with hx | hx | hx
  · subst hx
    exfalso
    rcases hy with hy | hy | hy
    · exact hxy (h1.trans hy)
    · exact hlX (h1.trans hy)
    · exact hlO (h1.trans hy)
  · subst hx
    exact Or.inl ⟨rfl, h1.symm, (h1.trans h2).symm⟩
  · subst hx
    exact Or.inr ⟨rfl, h1.symm, (h1.trans h2).symm⟩

theorem line_all_won (b : Board) (m : String) (h : line_all b m = true) :
    game_is_won b = true := by
  simp only [line_all, Bool.or_eq_true, Bool.and_eq_true, beq_iff_eq] at h
  simp only [game_is_won, Bool.or_eq_true, Bool.and_eq_true, beq_iff_eq]
  rcases h with ((((((h | h) | h) | h) | h) | h) | h) | h <;>
    obtain ⟨⟨e1, e2⟩, e3⟩ := h
  · exact Or.inl (Or.inl (Or.inl (Or.inl (Or.inl (all3 e1 e2 e3)))))
  · exact Or.inl (Or.inl (Or.inl (Or.inl (Or.inr (all3 e1 e2 e3)))))
  · exact Or.inl (Or.inl (Or.inl (Or.inr (all3 e1 e2 e3))))
  · exact Or.inl (Or.inl (Or.inr (Or.inl (Or.inl (all3 e1 e2 e3)))))
  · exact Or.inl (Or.inl (Or.inr (Or.inl (Or.inr (all3 e1 e2 e3)))))
  · exact Or.inl (Or.inl (Or.inr (Or.inr (all3 e1 e2 e3))))
  · exact Or.inl (Or.inr (all3 e1 e2 e3))
  · exact Or.inr (all3 e1 e2 e3)

theorem line_all_set (b : Board) (t m : String) (mv : Nat) (hWF : WF b)
    (hv : is_valid_move b mv = true)
    (h : line_all (board_set b (move_to_board_location mv).1
      (move_to_board_location mv).2 t) m = true) :
    line_all b m = true ∨ t = m := by
  obtain ⟨a00, a01, a02, a10, a11, a12, a20, a21, a22, rfl⟩ := wf_destruct b hWF
  have hr : 1 ≤ mv ∧ mv ≤ 9 := by
    by_contra hc
    simp [is_valid_move, hc] at hv
  obtain ⟨h1, h9⟩ := hr
  interval_cases mv <;>
    simp only [move_to_board_location, line_all, set_mk00, set_mk01, set_mk02,
      set_mk10, set_mk11, set_mk12, set_mk20, set_mk21, set_mk22,
      cell_mk00, cell_mk01, cell_mk02, cell_mk10, cell_mk11, cell_mk12,
      cell_mk20, cell_mk21, cell_mk22, Bool.or_eq_true, Bool.and_eq_true,
      beq_iff_eq, Nat.reduceSub, Nat.reduceDiv, Nat.reduceMod] at h ⊢ <;>
    rcases h with ((((((h | h) | h) | h) | h) | h) | h) | h <;>
      obtain ⟨⟨e1, e2⟩, e3⟩ := h <;>
      itauto

theorem line_pick1 {l1 l2 l3 l4 l5 l6 l7 l8 : Prop} (h : l1) :
    ((((((l1 ∨ l2) ∨ l3) ∨ l4) ∨ l5) ∨ l6) ∨ l7) ∨ l8 :=
  Or.inl (Or.inl (Or.inl (Or.inl (Or.inl (Or.inl (Or.inl h))))))

theorem line_pick2 {l1 l2 l3 l4 l5 l6 l7 l8 : Prop} (h : l2) :
    ((((((l1 ∨ l2) ∨ l3) ∨ l4) ∨ l5) ∨ l6) ∨ l7) ∨ l8 :=
  Or.inl (Or.inl (Or.inl (Or.inl (Or.inl (Or.inl (Or.inr h))))))

theorem line_pick3 {l1 l2 l3 l4 l5 l6 l7 l8 : Prop} (h : l3) :
    ((((((l1 ∨ l2) ∨ l3) ∨ l4) ∨ l5) ∨ l6) ∨ l7) ∨ l8 :=
  Or.inl (Or.inl (Or.inl (Or.inl (Or.inl (Or.inr h)))))

theorem line_pick4 {l1 l2 l3 l4 l5 l6 l7 l8 : Prop} (h : l4) :
    ((((((l1 ∨ l2) ∨ l3) ∨ l4) ∨ l5) ∨ l6) ∨ l7) ∨ l8 :=
  Or.inl (Or.inl (Or.inl (Or.inl (Or.inr h))))

theorem line_pick5 {l1 l2 l3 l4 l5 l6 l7 l8 : Prop} (h : l5) :
    ((((((l1 ∨ l2) ∨ l3) ∨ l4) ∨ l5) ∨ l6) ∨ l7) ∨ l8 :=
  Or.inl (Or.inl (Or.inl (Or.inr h)))

theorem line_pick6 {l1 l2 l3 l4 l5 l6 l7 l8 : Prop} (h : l6) :
    ((((((l1 ∨ l2) ∨ l3) ∨ l4) ∨ l5) ∨ l6) ∨ l7) ∨ l8 :=
  Or.inl (Or.inl (Or.inr h))

theorem line_pick7 {l1 l2 l3 l4 l5 l6 l7 l8 : Prop} (h : l7) :
    ((((((l1 ∨ l2) ∨ l3) ∨ l4) ∨ l5) ∨ l6) ∨ l7) ∨ l8 :=
  Or.inl (Or.inr h)

theorem line_pick8 {l1 l2 l3 l4 l5 l6 l7 l8 : Prop} (h : l8) :
    ((((((l1 ∨ l2) ∨ l3) ∨ l4) ∨ l5) ∨ l6) ∨ l7) ∨ l8 :=
  Or.inr h

theorem won_pick1 {r0 r1 r2 c0 c1 c2 d1 d2 : Prop} (h : r0) :
    ((((r0 ∨ r1) ∨ r2) ∨ ((c0 ∨ c1) ∨ c2)) ∨ d1) ∨ d2 :=
  Or.inl (Or.inl (Or.inl (Or.inl (Or.inl h))))

theorem won_pick2 {r0 r1 r2 c0 c1 c2 d1 d2 : Prop} (h : r1) :
    ((((r0 ∨ r1) ∨ r2) ∨ ((c0 ∨ c1) ∨ c2)) ∨ d1) ∨ d2 :=
  Or.inl (Or.inl (Or.inl (Or.inl (Or.inr h))))

theorem won_pick3 {r0 r1 r2 c0 c1 c2 d1 d2 : Prop} (h : r2) :
    ((((r0 ∨ r1) ∨ r2) ∨ ((c0 ∨ c1) ∨ c2)) ∨ d1) ∨ d2 :=
  Or.inl (Or.inl (Or.inl (Or.inr h)))

theorem won_pick4 {r0 r1 r2 c0 c1 c2 d1 d2 : Prop} (h : c0) :
    ((((r0 ∨ r1) ∨ r2) ∨ ((c0 ∨ c1) ∨ c2)) ∨ d1) ∨ d2 :=
  Or.inl (Or.inl (Or.inr (Or.inl (Or.inl h))))

theorem won_pick5 {r0 r1 r2 c0 c1 c2 d1 d2 : Prop} (h : c1) :
    ((((r0 ∨ r1) ∨ r2) ∨ ((c0 ∨ c1) ∨ c2)) ∨ d1) ∨ d2 :=
  Or.inl (Or.inl (Or.inr (Or.inl (Or.inr h))))

theorem won_pick6 {r0 r1 r2 c0 c1 c2 d1 d2 : Prop} (h : c2) :
    ((((r0 ∨ r1) ∨ r2) ∨ ((c0 ∨ c1) ∨ c2)) ∨ d1) ∨ d2 :=
  Or.inl (Or.inl (Or.inr (Or.inr h)))

theorem won_pick7 {r0 r1 r2 c0 c1 c2 d1 d2 : Prop} (h : d1) :
    ((((r0 ∨ r1) ∨ r2) ∨ ((c0 ∨ c1) ∨ c2)) ∨ d1) ∨ d2 :=
  Or.inl (Or.inr h)

theorem won_pick8 {r0 r1 r2 c0 c1 c2 d1 d2 : Prop} (h : d2) :
    ((((r0 ∨ r1) ∨ r2) ∨ ((c0 ∨ c1) ∨ c2)) ∨ d1) ∨ d2 :=
  Or.inr h

/-- C3: on every board reachable by legal play, `game_is_won` reports a win
iff at least one of the 8 lines has all three cells occupied by the same
mark (the spec-side `lineWonSpec`); no other reachable configuration is
reported as won. -/
theorem c3_win_check_correct (b : Board) (hR : Reachable b) :
    game_is_won b = lineWonSpec b := by
  obtain ⟨hWF, hcells⟩ := hR
  obtain ⟨a00, a01, a02, a10, a11, a12, a20, a21, a22, rfl⟩ := wf_destruct b hWF
  have h00 : a00 = "1" ∨ a00 = "X" ∨ a00 = "O" := by
    simpa [show posLabel 0 0 = "1" from rfl] using hcells 0 (by omega) 0 (by omega)
  have h01 : a01 = "2" ∨ a01 = "X" ∨ a01 = "O" := by
    simpa [show posLabel 0 1 = "2" from rfl] using hcells 0 (by omega) 1 (by omega)
  have h02 : a02 = "3" ∨ a02 = "X" ∨ a02 = "O" := by
    simpa [show posLabel 0 2 = "3" from rfl] using hcells 0 (by omega) 2 (by omega)
  have h10 : a10 = "4" ∨ a10 = "X" ∨ a10 = "O" := by
    simpa [show posLabel 1 0 = "4" from rfl] using hcells 1 (by omega) 0 (by omega)
  have h11 : a11 = "5" ∨ a11 = "X" ∨ a11 = "O" := by
    simpa [show posLabel 1 1 = "5" from rfl] using hcells 1 (by omega) 1 (by omega)
  have h12 : a12 = "6" ∨ a12 = "X" ∨ a12 = "O" := by
    simpa [show posLabel 1 2 = "6" from rfl] using hcells 1 (by omega) 2 (by omega)
  have h20 : a20 = "7" ∨ a20 = "X" ∨ a20 = "O" := by
    simpa [show posLabel 2 0 = "7" from rfl] using hcells 2 (by omega) 0 (by omega)
  have h21 : a21 = "8" ∨ a21 = "X" ∨ a21 = "O" := by
    simpa [show posLabel 2 1 = "8" from rfl] using hcells 2 (by omega) 1 (by omega)
  have h22 : a22 = "9" ∨ a22 = "X" ∨ a22 = "O" := by
    simpa [show posLabel 2 2 = "9" from rfl] using hcells 2 (by omega) 2 (by omega)
  rw [Bool.eq_iff_iff]
  simp only [game_is_won, lineWonSpec, line_all,
    cell_mk00, cell_mk01, cell_mk02, cell_mk10, cell_mk11, cell_mk12,
    cell_mk20, cell_mk21, cell_mk22, Bool.or_eq_true, Bool.and_eq_true,
    beq_iff_eq]
  constructor
  · intro h
    rcases h with ((((h | h) | h) | ((h | h) | h)) | h) | h <;>
      obtain ⟨e1, e2⟩ := h
    · rcases line_mark h00 h01 (by decide) (by decide) (by decide) e1 e2 with
        ⟨f1, f2, f3⟩ | ⟨f1, f2, f3⟩
      · exact Or.inl (line_pick1 ⟨⟨f1, f2⟩, f3⟩)
      · exact Or.inr (line_pick1 ⟨⟨f1, f2⟩, f3⟩)
    · rcases line_mark h10 h11 (by decide) (by decide) (by decide) e1 e2 with
        ⟨f1, f2, f3⟩ | ⟨f1, f2, f3⟩
      · exact Or.inl (line_pick2 ⟨⟨f1, f2⟩, f3⟩)
      · exact Or.inr (line_pick2 ⟨⟨f1, f2⟩, f3⟩)
    · rcases line_mark h20 h21 (by decide) (by decide) (by decide) e1 e2 with
        ⟨f1, f2, f3⟩ | ⟨f1, f2, f3⟩
      · exact Or.inl (line_pick3 ⟨⟨f1, f2⟩, f3⟩)
      · exact Or.inr (line_pick3 ⟨⟨f1, f2⟩, f3⟩)
    · rcases line_mark h00 h10 (by decide) (by decide) (by decide) e1 e2 with
        ⟨f1, f2, f3⟩ | ⟨f1, f2, f3⟩
      · exact Or.inl (line_pick4 ⟨⟨f1, f2⟩, f3⟩)
      · exact Or.inr (line_pick4 ⟨⟨f1, f2⟩, f3⟩)
    · rcases line_mark h01 h11 (by decide) (by decide) (by decide) e1 e2 with
        ⟨f1, f2, f3⟩ | ⟨f1, f2, f3⟩
      · exact Or.inl (line_pick5 ⟨⟨f1, f2⟩, f3⟩)
      · exact Or.inr (line_pick5 ⟨⟨f1, f2⟩, f3⟩)
    · rcases line_mark h02 h12 (by decide) (by decide) (by decide) e1 e2 with
        ⟨f1, f2, f3⟩ | ⟨f1, f2, f3⟩
      · exact Or.inl (line_pick6 ⟨⟨f1, f2⟩, f3⟩)
      · exact Or.inr (line_pick6 ⟨⟨f1, f2⟩, f3⟩)
    · rcases line_mark h00 h11 (by decide) (by decide) (by decide) e1 e2 with
        ⟨f1, f2, f3⟩ | ⟨f1, f2, f3⟩
      · exact Or.inl (line_pick7 ⟨⟨f1, f2⟩, f3⟩)
      · exact Or.inr (line_pick7 ⟨⟨f1, f2⟩, f3⟩)
    · rcases line_mark h02 h11 (by decide) (by decide) (by decide) e1 e2 with
        ⟨f1, f2, f3⟩ | ⟨f1, f2, f3⟩
      · exact Or.inl (line_pick8 ⟨⟨f1, f2⟩, f3⟩)
      · exact Or.inr (line_pick8 ⟨⟨f1, f2⟩, f3⟩)
  · intro h
    rcases h with h | h <;>
      rcases h with ((((((h | h) | h) | h) | h) | h) | h) | h <;>
      obtain ⟨⟨e1, e2⟩, e3⟩ := h
    · exact won_pick1 (all3 e1 e2 e3)
    · exact won_pick2 (all3 e1 e2 e3)
    · exact won_pick3 (all3 e1 e2 e3)
    · exact won_pick4 (all3 e1 e2 e3)
    · exact won_pick5 (all3 e1 e2 e3)
    · exact won_pick6 (all3 e1 e2 e3)
    · exact won_pick7 (all3 e1 e2 e3)
    · exact won_pick8 (all3 e1 e2 e3)
    · exact won_pick1 (all3 e1 e2 e3)
    · exact won_pick2 (all3 e1 e2 e3)
    · exact won_pick3 (all3 e1 e2 e3)
    · exact won_pick4 (all3 e1 e2 e3)
    · exact won_pick5 (all3 e1 e2 e3)
    · exact won_pick6 (all3 e1 e2 e3)
    · exact won_pick7 (all3 e1 e2 e3)
    · exact won_pick8 (all3 e1 e2 e3)

/-- Witness for C3 at the fresh board. -/
theorem c3_witness :
    Reachable new_board ∧ game_is_won new_board = lineWonSpec new_board :=
  ⟨by decide, c3_win_check_correct new_board (by decide)⟩

theorem cell_board_set_ne (b : Board) (r0 c0 r c : Nat) (v : String)
    (h : ¬(r = r0 ∧ c = c0)) :
    cell (board_set b r0 c0 v) r c = cell b r c := by
  by_cases hr : r0 = r
  · subst hr
    have hc : c0 ≠ c := fun hcc => h ⟨rfl, hcc.symm⟩
    by_cases hlen : r0 < b.length
    · unfold cell board_set
      rw [List.getElem?_set_self hlen, List.getElem?_eq_getElem hlen]
      simp [List.getElem?_set_ne hc]
    · unfold cell board_set
      rw [List.set_eq_of_length_le (by omega)]
  · unfold cell board_set
    rw [List.getElem?_set_ne hr]

/-- C8: once a cell holds a mark, no turn ever changes it — a turn writes
only to the (valid) position it was given, which the legality check
guarantees to be a cell holding neither mark, so occupied cells are never
overwritten or cleared by `play_turn`. -/
theorem c8_no_overwrite (g : Game) (mv r c : Nat)
    (hv : is_valid_move g.board mv = true)
    (hocc : cell g.board r c = "X" ∨ cell g.board r c = "O") :
    cell (play_turn g mv).board r c = cell g.board r c := by
  obtain ⟨-, -, hX, hO⟩ := (is_valid_move_iff g.board mv).mp hv
  have hne : ¬(r = (move_to_board_location mv).1 ∧
      c = (move_to_board_location mv).2) := by
    rintro ⟨hr, hc⟩
    subst hr
    subst hc
    rcases hocc with hocc | hocc
    · exact hX hocc
    · exact hO hocc
  exact cell_board_set_ne g.board (move_to_board_location mv).1
    (move_to_board_location mv).2 r c (valid_token g.current_turn) hne

/-- Witness for C8: the player plays 2 and the "X" at (0,0) is unchanged. -/
theorem c8_witness :
    is_valid_move won_setup.board 3 = true ∧
    (cell won_setup.board 0 0 = "X" ∨ cell won_setup.board 0 0 = "O") ∧
    cell (play_turn won_setup 3).board 0 0 = cell won_setup.board 0 0 :=
  ⟨by decide, by decide,
    c8_no_overwrite won_setup 3 0 0 (by decide) (by decide)⟩

/-- C5: when a move decides the match, the printed message corresponds to
the side that owns the winning mark: if "X" (the Player's mark) fills a
complete line the message is "You won!", and if "O" (the Bot's mark) fills
one the message is "You lost!". -/
theorem c5_message_matches_mark (g : Game) (mv : Nat) (ans : Option String)
    (hWF : WF g.board) (hv : is_valid_move g.board mv = true)
    (hnot : game_is_won g.board = false)
    (hwon : game_is_won (play_turn g mv).board = true) :
    (line_all (play_turn g mv).board "X" = true →
      (play_game_iter g mv ans).2.2 = ["You won!"]) ∧
    (line_all (play_turn g mv).board "O" = true →
      (play_game_iter g mv ans).2.2 = ["You lost!"]) := by
  have hmsg : (play_game_iter g mv ans).2.2 =
      [match g.current_turn with
       | Turn.Player => "You won!"
       | Turn.Bot => "You lost!"] := by
    simp only [play_game_iter, hwon, if_true]
    rfl
  constructor
  · intro hX
    rcases line_all_set g.board (valid_token g.current_turn) "X" mv hWF hv hX with
      hb | ht
    · exact absurd (line_all_won _ _ hb) (by simp [hnot])
    · have hp : g.current_turn = Turn.Player := by
        cases hc : g.current_turn
        · rfl
        · rw [hc] at ht
          exact absurd ht (by decide)
      rw [hmsg, hp]
  · intro hO
    rcases line_all_set g.board (valid_token g.current_turn) "O" mv hWF hv hO with
      hb | ht
    · exact absurd (line_all_won _ _ hb) (by simp [hnot])
    · have hp : g.current_turn = Turn.Bot := by
        cases hc : g.current_turn
        · rw [hc] at ht
          exact absurd ht (by decide)
        · rfl
      rw [hmsg, hp]

/-- Witness for C5: the player completes the top row and is told
"You won!". -/
theorem c5_witness :
    WF won_setup.board ∧ is_valid_move won_setup.board 3 = true ∧
    game_is_won won_setup.board = false ∧
    game_is_won (play_turn won_setup 3).board = true ∧
    ((line_all (play_turn won_setup 3).board "X" = true →
        (play_game_iter won_setup 3 none).2.2 = ["You won!"]) ∧
      (line_all (play_turn won_setup 3).board "O" = true →
        (play_game_iter won_setup 3 none).2.2 = ["You lost!"])) :=
  ⟨by decide, by decide, by decide, by decide,
    c5_message_matches_mark won_setup 3 none (by decide) (by decide)
      (by decide) (by decide)⟩

end TicTacToe
